import Mathlib

/-!
Shallow embedding of the cfo-copilot agent core:

* `ToolRegistry.execute_tool` from `agent/tools.py`;
* `MainAgent.get_groq_tools` and `MainAgent.process_query` from
  `agent/main_agent.py`.

External effects are modelled as oracles collected in an `Env` record:
the Groq chat-completion call (which may raise, hence `Except`),
`json.loads` on a tool call's raw argument string (which may fail, hence
`Option`), and `json.dumps` on a tool result.  Everything else is a direct
translation of the Python source.  Python dicts keyed by strings are
lists of pairs in insertion order; a Python `return` of a dict literal
becomes a Lean structure value; an uncaught Python exception is
`Except.error`.
-/

/-- JSON-like payload values carried by tool arguments and tool results.
`emptyDict` models the Python empty dict `{}` used as the default of
`log_entry['result'].get('result', {})`. -/
inductive Value where
  | str : String → Value
  | num : Int → Value
  | emptyDict : Value
  deriving DecidableEq, Repr

/-- A parsed tool-argument map (the result of `json.loads` on the model's
argument string), keys in insertion order. -/
abbrev ArgsMap := List (String × Value)

/-- One tool entry of `ToolRegistry.tools` (`agent/tools.py`, constructor):
the dict key (`name`), the `"function"` value as a handler that either
returns a value or raises (`Except.error` = Python exception, carrying
`str(e)`), and the `"description"` / `"parameters"` values.  The latter two
are `Option` so that a malformed registry entry (a missing dict key, whose
access raises `KeyError`) is representable, as §4.1 of the spec requires. -/
structure ToolDescriptor where
  name : String
  handler : ArgsMap → Except String Value
  description : Option String
  parameters : Option (List (String × String))

/-- The tool registry: the `self.tools` dict of `ToolRegistry`. -/
structure ToolRegistry where
  tools : List ToolDescriptor

/-- The dict returned by `ToolRegistry.execute_tool`.  Python dicts carry
only the keys actually set, so every field except `success` is an
`Option`: `none` means the key is absent from the returned dict. -/
structure ToolResult where
  success : Bool
  result : Option Value
  error : Option String
  tool : Option String
  parameters : Option ArgsMap
  deriving DecidableEq, Repr

/-- Dict lookup `self.tools[tool_name]` (keys are unique in a dict, so
first match suffices). -/
def findTool (reg : ToolRegistry) (tool_name : String) : Option ToolDescriptor :=
  reg.tools.find? (fun t => t.name == tool_name)

/-- Python `repr` of a list of strings, as interpolated by
`f"... {list(self.tools.keys())}"`. -/
def pyStrListAux : List String → String
  | [] => ""
  | [x] => "\x27" ++ x ++ "\x27"
  | x :: xs => "\x27" ++ x ++ "\x27" ++ ", " ++ pyStrListAux xs

/-- Python `repr` of a list of strings, with brackets. -/
def pyStrList (l : List String) : String := "[" ++ pyStrListAux l ++ "]"

/-- The error message built at `tools.py` lines 219-222 for an
unregistered tool name. -/
def notFoundError (tool_name : String) (reg : ToolRegistry) : String :=
  "Tool \x27" ++ tool_name ++ "\x27 not found. Available tools: " ++
    pyStrList (reg.tools.map ToolDescriptor.name)

/-- `ToolRegistry.execute_tool` (`agent/tools.py` lines 216-236): look up
the tool; report an unknown name as a `success=False` result; otherwise
call the handler, catching any exception into a `success=False` result
that records the message, the tool name and the parameters. -/
def execute_tool (reg : ToolRegistry) (tool_name : String) (parameters : ArgsMap) :
    ToolResult :=
  match findTool reg tool_name with
  | none => ⟨false, none, some (notFoundError tool_name reg), none, none⟩
  | some t =>
    match t.handler parameters with
    | .ok r => ⟨true, some r, none, none, none⟩
    | .error e => ⟨false, none, some e, some tool_name, some parameters⟩

/-- The JSON-Schema fragment emitted per parameter by `get_groq_tools`. -/
structure ParamSchema where
  type : String
  description : String
  deriving DecidableEq, Repr

/-- The `'parameters'` object of an emitted Groq tool. -/
structure GroqParameters where
  type : String
  properties : List (String × ParamSchema)
  required : List String
  deriving DecidableEq, Repr

/-- The `'function'` object of an emitted Groq tool. -/
structure GroqFunction where
  name : String
  description : String
  parameters : GroqParameters
  deriving DecidableEq, Repr

/-- One entry of the list returned by `get_groq_tools`. -/
structure GroqTool where
  type : String
  function : GroqFunction
  deriving DecidableEq, Repr

/-- Per-parameter schema construction (`agent/main_agent.py` lines 27-53):
everything is typed `"string"`; the structured parameters `filters`,
`group_by`/`columns`/`on_columns` and `data` get a JSON-encoding
instruction appended to their description. -/
def paramSchema (param_name param_desc : String) : ParamSchema :=
  if param_name == "filters" then
    ⟨"string", param_desc ++ " Provide as JSON string."⟩
  else if param_name == "group_by" || param_name == "columns" || param_name == "on_columns" then
    ⟨"string", param_desc ++ " Provide as JSON array string."⟩
  else if param_name == "data" then
    ⟨"string", param_desc ++ " Provide as JSON string."⟩
  else
    ⟨"string", param_desc⟩

/-- Conversion of one registry entry to a Groq tool
(`agent/main_agent.py` lines 22-67).  The loop body reads
`tool_info['parameters']` first (line 27) and `tool_info['description']`
later (line 59); a missing key raises `KeyError`, modelled as
`Except.error`. -/
def groqToolOf (t : ToolDescriptor) : Except String GroqTool :=
  match t.parameters with
  | none => .error "KeyError: \x27parameters\x27"
  | some ps =>
    match t.description with
    | none => .error "KeyError: \x27description\x27"
    | some d =>
      .ok ⟨"function",
           ⟨t.name, d,
            ⟨"object",
             ps.map (fun p => (p.1, paramSchema p.1 p.2)),
             ps.map Prod.fst⟩⟩⟩

/-- The `for tool_name, tool_info in self.tools.items()` loop of
`get_groq_tools`, accumulating `groq_tools` in order; the first raised
`KeyError` propagates. -/
def groqToolsAux : List ToolDescriptor → Except String (List GroqTool)
  | [] => .ok []
  | t :: rest =>
    match groqToolOf t with
    | .error e => .error e
    | .ok g =>
      match groqToolsAux rest with
      | .error e => .error e
      | .ok gs => .ok (g :: gs)

/-- `MainAgent.get_groq_tools` (`agent/main_agent.py` lines 18-69). -/
def get_groq_tools (reg : ToolRegistry) : Except String (List GroqTool) :=
  groqToolsAux reg.tools

/-- One tool call of a model response:
`{id, function.name, function.arguments}`. -/
structure ToolCall where
  id : String
  name : String
  arguments : String
  deriving DecidableEq, Repr

/-- A model response message: its text `content` and its `tool_calls`
list.  The Python truthiness test `if response_message.tool_calls:` is
false both for `None` and for an empty list, so `[]` models both. -/
structure ResponseMessage where
  content : String
  tool_calls : List ToolCall
  deriving DecidableEq, Repr

/-- A conversation message, as appended to `messages` in
`process_query`: the initial system and user messages, the assistant's
response object appended at line 133, and the tool-result dict appended
at lines 177-182. -/
inductive Message where
  | system : String → Message
  | user : String → Message
  | assistant : ResponseMessage → Message
  | tool : (tool_call_id : String) → (name : String) → (content : String) → Message
  deriving DecidableEq, Repr

/-- One entry of `execution_log` (`agent/main_agent.py` lines 170-174). -/
structure LogEntry where
  tool : String
  arguments : ArgsMap
  result : ToolResult
  deriving DecidableEq, Repr

/-- The dict returned by `process_query`.  The `Done` return (lines
200-206) carries a `chart_data` key (possibly `None`); the `Failed`
(lines 210-215) and `Exhausted` (lines 217-222) returns omit the key
entirely.  Hence `chart_data : Option (Option Value)`: `none` = key
absent, `some none` = key present with value `None`, `some (some v)` =
key present with a chart payload. -/
structure AgentResult where
  answer : String
  chart_data : Option (Option Value)
  execution_log : List LogEntry
  success : Bool
  iterations : Nat
  deriving DecidableEq, Repr

/-- The external effects of `process_query`, supplied as oracles:
`model` is the Groq chat-completion call (input: the message sequence;
`Except.error` = the call raised, carrying `str(e)`); `parseJson` is
`json.loads` on an argument string (`none` = `json.JSONDecodeError`);
`dumps` is `json.dumps` on a tool result. -/
structure Env where
  model : List Message → Except String ResponseMessage
  parseJson : String → Option ArgsMap
  dumps : ToolResult → String

/-- The `for index, tool_call in enumerate(response_message.tool_calls)`
loop (`agent/main_agent.py` lines 140-182): for each call in order,
parse the arguments (empty map on parse failure, lines 149-153), execute
via the registry (line 156), append one execution-log entry (lines
170-174) and one tool-result message keyed by the call's id (lines
177-182). -/
def processTools (env : Env) (reg : ToolRegistry) :
    List ToolCall → List Message → List LogEntry → List Message × List LogEntry
  | [], messages, log => (messages, log)
  | tc :: rest, messages, log =>
    let tool_args := (env.parseJson tc.arguments).getD []
    let tool_result := execute_tool reg tc.name tool_args
    processTools env reg rest
      (messages ++ [Message.tool tc.id tc.name (env.dumps tool_result)])
      (log ++ [⟨tc.name, tool_args, tool_result⟩])

/-- The backward-compatible chart scan (`agent/main_agent.py` lines
189-192): iterate the execution log forward, reassigning `chart_data` at
every successful `create_chart` entry, so the latest one wins;
`.get('result', {})` defaults to the empty dict. -/
def chartScan (acc : Option Value) : List LogEntry → Option Value
  | [] => acc
  | e :: rest =>
    chartScan
      (if e.tool == "create_chart" && e.result.success then
        some (e.result.result.getD Value.emptyDict)
      else acc) rest

/-- `chart_data` as computed on the `Done` path, starting from `None`. -/
def extractChartData (log : List LogEntry) : Option Value :=
  chartScan none log

/-- The answer string of the `Exhausted` return (line 218). -/
def exhaustedAnswer : String := "Could not complete analysis within iteration limit"

/-- The `while iteration < max_iterations` loop of `process_query`
(`agent/main_agent.py` lines 113-222), written with fuel
`max_iterations - iteration`: each pass increments the iteration
counter, calls the model (a raise returns the `Failed` result, lines
210-215), appends the response, and either processes the tool calls and
continues, or returns the `Done` result (lines 200-206); exhausted fuel
returns the `Exhausted` result (lines 217-222) with
`iterations = max_iterations = 15`. -/
def loopAux (env : Env) (reg : ToolRegistry) :
    Nat → Nat → List Message → List LogEntry → AgentResult
  | 0, _, _, log => ⟨exhaustedAnswer, none, log, false, 15⟩
  | fuel + 1, iteration, messages, log =>
    match env.model messages with
    | .error e =>
      ⟨"Error occurred during processing: " ++ e, none, log, false, iteration + 1⟩
    | .ok response_message =>
      let messages := messages ++ [Message.assistant response_message]
      if response_message.tool_calls.isEmpty then
        ⟨response_message.content, some (extractChartData log), log, true, iteration + 1⟩
      else
        let p := processTools env reg response_message.tool_calls messages log
        loopAux env reg fuel (iteration + 1) p.1 p.2

/-- `MainAgent.process_query` (`agent/main_agent.py` lines 71-222): build
the initial system+user message pair, convert the registry to Groq tools
(line 107, outside the `try`, so a `KeyError` there propagates to the
caller), then run the loop with `max_iterations = 15`. -/
def process_query (env : Env) (reg : ToolRegistry)
    (user_query system_prompt : String) : Except String AgentResult :=
  match get_groq_tools reg with
  | .error e => .error e
  | .ok _tools =>
    .ok (loopAux env reg 15 0 [Message.system system_prompt, Message.user user_query] [])

/-- A concrete `explore_csv`-like tool used for concrete runs. -/
def demoTool : ToolDescriptor :=
  ⟨"explore_csv", fun _ => .ok (Value.str "explored"),
   some "Explore the structure and content of a CSV file.",
   some [("csv_name", "Name of the CSV file")]⟩

/-- A concrete one-tool registry. -/
def demoRegistry : ToolRegistry := ⟨[demoTool]⟩

/-- A concrete tool call issued by the model. -/
def demoToolCall : ToolCall := ⟨"call_1", "explore_csv", "csv_name=actuals"⟩

/-- A model response consisting of one tool call. -/
def demoRespTools : ResponseMessage := ⟨"", [demoToolCall]⟩

/-- A model response with a final textual answer and no tool calls. -/
def demoRespFinal : ResponseMessage := ⟨"Revenue was 500000 dollars.", []⟩

/-- A concrete `json.loads` oracle: succeeds exactly on the demo call's
argument string. -/
def demoParse : String → Option ArgsMap :=
  fun s =>
    if s == "csv_name=actuals" then some [("csv_name", Value.str "actuals.csv")]
    else none

/-- A concrete `json.dumps` oracle. -/
def demoDumps : ToolResult → String :=
  fun r => if r.success then "serialized success" else "serialized failure"

/-- Environment whose model issues one tool-call turn (while only the
initial two messages are present) and then a final-answer turn. -/
def demoEnv : Env :=
  ⟨fun ms => if ms.length ≤ 2 then .ok demoRespTools else .ok demoRespFinal,
   demoParse, demoDumps⟩

/-- Environment whose model requests a tool call on every turn. -/
def demoLoopEnv : Env := ⟨fun _ => .ok demoRespTools, demoParse, demoDumps⟩

/-- Environment whose model call raises on every turn. -/
def demoFailEnv : Env := ⟨fun _ => .error "API connection timeout", demoParse, demoDumps⟩

/-- A concrete tool whose handler always raises. -/
def demoFailTool : ToolDescriptor :=
  ⟨"extract_csv_data", fun _ => .error "Error extracting data",
   some "Extract rows from a CSV file based on filter conditions.",
   some [("csv_name", "CSV file to load from"),
         ("filters", "JSON string of column-value filters to apply.")]⟩

/-- A concrete two-tool registry (one succeeding, one raising tool). -/
def demoRegistrySucceedFail : ToolRegistry := ⟨[demoTool, demoFailTool]⟩

/-- A registry whose single entry lacks the `parameters` and
`description` keys. -/
def demoBadRegistry : ToolRegistry :=
  ⟨[⟨"broken", fun _ => .ok (Value.str "x"), none, none⟩]⟩

/-- A tool call whose argument string is not parseable JSON. -/
def demoBadCall : ToolCall := ⟨"call_2", "explore_csv", "not json"⟩

/-- The execution-log entry each `demoToolCall` execution produces. -/
def demoLogEntry : LogEntry :=
  ⟨"explore_csv", [("csv_name", Value.str "actuals.csv")],
   ⟨true, some (Value.str "explored"), none, none, none⟩⟩

/-- A successful `create_chart` execution-log entry. -/
def demoChartEntry : LogEntry :=
  ⟨"create_chart", [], ⟨true, some (Value.str "chart one"), none, none, none⟩⟩

/-- The Groq tool emitted for `demoTool`. -/
def demoGroqTool : GroqTool :=
  ⟨"function",
   ⟨"explore_csv", "Explore the structure and content of a CSV file.",
    ⟨"object", [("csv_name", ⟨"string", "Name of the CSV file"⟩)], ["csv_name"]⟩⟩⟩

/-- The matched-for predicate of the chart scan. -/
def isChartSuccess (e : LogEntry) : Bool :=
  e.tool == "create_chart" && e.result.success

/-- The value surfaced for a matching log entry. -/
def chartValue (e : LogEntry) : Value :=
  e.result.result.getD Value.emptyDict

lemma chartScan_eq_find :
    ∀ (l : List LogEntry) (acc : Option Value),
      chartScan acc l = ((l.reverse.find? isChartSuccess).map chartValue).or acc
  | [], acc => rfl
  | e :: rest, acc => by
    rw [chartScan, chartScan_eq_find rest, List.reverse_cons, List.find?_append]
    cases hfind : rest.reverse.find? isChartSuccess with
    | some e' => simp [Option.or]
    | none =>
      by_cases he : isChartSuccess e
      · have he' := he
        simp only [isChartSuccess, Bool.and_eq_true, beq_iff_eq] at he'
        simp [hfind, List.find?, he, isChartSuccess, chartValue, he'.1, he'.2]
      · simp [hfind, List.find?, he]
        simp only [isChartSuccess, Bool.and_eq_true, beq_iff_eq, not_and_or] at he
        rcases he with h | h
        · simp [h]
        · intro h1
          simp [h1] at h
          simp [h]

lemma extractChartData_eq_find (l : List LogEntry) :
    extractChartData l = (l.reverse.find? isChartSuccess).map chartValue := by
  rw [extractChartData, chartScan_eq_find]
  cases (l.reverse.find? isChartSuccess).map chartValue <;> rfl

lemma loopAux_zero (env : Env) (reg : ToolRegistry) (iteration : Nat)
    (ms : List Message) (lg : List LogEntry) :
    loopAux env reg 0 iteration ms lg = ⟨exhaustedAnswer, none, lg, false, 15⟩ := rfl

lemma loopAux_error (env : Env) (reg : ToolRegistry) (fuel iteration : Nat)
    (ms : List Message) (lg : List LogEntry) (e : String)
    (h : env.model ms = .error e) :
    loopAux env reg (fuel + 1) iteration ms lg =
      ⟨"Error occurred during processing: " ++ e, none, lg, false, iteration + 1⟩ := by
  simp [loopAux, h]

lemma loopAux_done (env : Env) (reg : ToolRegistry) (fuel iteration : Nat)
    (ms : List Message) (lg : List LogEntry) (r : ResponseMessage)
    (h : env.model ms = .ok r) (h2 : r.tool_calls = []) :
    loopAux env reg (fuel + 1) iteration ms lg =
      ⟨r.content, some (extractChartData lg), lg, true, iteration + 1⟩ := by
  simp [loopAux, h, h2]

lemma loopAux_step (env : Env) (reg : ToolRegistry) (fuel iteration : Nat)
    (ms : List Message) (lg : List LogEntry) (r : ResponseMessage)
    (h : env.model ms = .ok r) (h2 : r.tool_calls ≠ []) :
    loopAux env reg (fuel + 1) iteration ms lg =
      loopAux env reg fuel (iteration + 1)
        (processTools env reg r.tool_calls (ms ++ [Message.assistant r]) lg).1
        (processTools env reg r.tool_calls (ms ++ [Message.assistant r]) lg).2 := by
  have : r.tool_calls.isEmpty = false := List.isEmpty_eq_false.mpr h2
  simp [loopAux, h, this]

lemma loopAux_iterations_le (env : Env) (reg : ToolRegistry) :
    ∀ (fuel iteration : Nat) (ms : List Message) (lg : List LogEntry),
      iteration + fuel ≤ 15 →
      (loopAux env reg fuel iteration ms lg).iterations ≤ 15
  | 0, _, _, _, _ => le_refl 15
  | fuel + 1, iteration, ms, lg, h => by
    cases hm : env.model ms with
    | error e =>
      rw [loopAux_error env reg fuel iteration ms lg e hm]
      show iteration + 1 ≤ 15
      omega
    | ok r =>
      by_cases h2 : r.tool_calls = []
      · rw [loopAux_done env reg fuel iteration ms lg r hm h2]
        show iteration + 1 ≤ 15
        omega
      · rw [loopAux_step env reg fuel iteration ms lg r hm h2]
        exact loopAux_iterations_le env reg fuel (iteration + 1) _ _ (by omega)

lemma loopAux_exhaust (env : Env) (reg : ToolRegistry)
    (h : ∀ ms, ∃ r, env.model ms = .ok r ∧ r.tool_calls ≠ []) :
    ∀ (fuel iteration : Nat) (ms : List Message) (lg : List LogEntry),
      (loopAux env reg fuel iteration ms lg).success = false ∧
      (loopAux env reg fuel iteration ms lg).iterations = 15 ∧
      (loopAux env reg fuel iteration ms lg).answer = exhaustedAnswer
  | 0, _, _, _ => ⟨rfl, rfl, rfl⟩
  | fuel + 1, iteration, ms, lg => by
    obtain ⟨r, hm, hne⟩ := h ms
    rw [loopAux_step env reg fuel iteration ms lg r hm hne]
    exact loopAux_exhaust env reg h fuel (iteration + 1) _ _

lemma processTools_spec (env : Env) (reg : ToolRegistry) :
    ∀ (tcs : List ToolCall) (ms : List Message) (lg : List LogEntry),
      processTools env reg tcs ms lg =
        (ms ++ tcs.map (fun tc => Message.tool tc.id tc.name
            (env.dumps (execute_tool reg tc.name ((env.parseJson tc.arguments).getD [])))),
         lg ++ tcs.map (fun tc =>
            ⟨tc.name, (env.parseJson tc.arguments).getD [],
             execute_tool reg tc.name ((env.parseJson tc.arguments).getD [])⟩))
  | [], ms, lg => by simp [processTools]
  | tc :: rest, ms, lg => by
    rw [processTools, processTools_spec env reg rest]
    simp

lemma groqToolOf_ok_iff (t : ToolDescriptor) :
    (∃ g, groqToolOf t = .ok g) ↔ t.parameters ≠ none ∧ t.description ≠ none := by
  rcases t with ⟨n, h, d, ps⟩
  cases ps <;> cases d <;> simp [groqToolOf]

lemma groqToolOf_shape (t : ToolDescriptor) (g : GroqTool) (h : groqToolOf t = .ok g) :
    ∃ ps d, t.parameters = some ps ∧ t.description = some d ∧
      g = ⟨"function",
           ⟨t.name, d,
            ⟨"object",
             ps.map (fun p => (p.1, paramSchema p.1 p.2)),
             ps.map Prod.fst⟩⟩⟩ := by
  rcases t with ⟨n, hf, d, ps⟩
  cases ps with
  | none => simp [groqToolOf] at h
  | some ps =>
    cases d with
    | none => simp [groqToolOf] at h
    | some d =>
      refine ⟨ps, d, rfl, rfl, ?_⟩
      simpa [groqToolOf] using h.symm

lemma groqToolsAux_ok_iff :
    ∀ l : List ToolDescriptor,
      (∃ gs, groqToolsAux l = .ok gs) ↔
        ∀ t ∈ l, t.parameters ≠ none ∧ t.description ≠ none
  | [] => by simp [groqToolsAux]
  | t :: rest => by
    simp only [List.mem_cons, forall_eq_or_imp]
    rw [← groqToolOf_ok_iff, ← groqToolsAux_ok_iff rest]
    constructor
    · rintro ⟨gs, hgs⟩
      rw [groqToolsAux] at hgs
      cases hg : groqToolOf t with
      | error e => rw [hg] at hgs; exact absurd hgs (by simp)
      | ok g =>
        rw [hg] at hgs
        cases hrest : groqToolsAux rest with
        | error e => rw [hrest] at hgs; exact absurd hgs (by simp)
        | ok gs' => exact ⟨⟨g, rfl⟩, ⟨gs', rfl⟩⟩
    · rintro ⟨⟨g, hg⟩, ⟨gs, hgs⟩⟩
      exact ⟨g :: gs, by rw [groqToolsAux, hg, hgs]⟩

lemma groqToolsAux_mem_ok :
    ∀ (l : List ToolDescriptor) (gs : List GroqTool), groqToolsAux l = .ok gs →
      ∀ g ∈ gs, ∃ t ∈ l, groqToolOf t = .ok g
  | [], gs, h => by
    rw [groqToolsAux] at h
    cases h
    simp
  | t :: rest, gs, h => by
    rw [groqToolsAux] at h
    cases hg : groqToolOf t with
    | error e => rw [hg] at h; exact absurd h (by simp)
    | ok g0 =>
      rw [hg] at h
      cases hrest : groqToolsAux rest with
      | error e => rw [hrest] at h; exact absurd h (by simp)
      | ok gs' =>
        rw [hrest] at h
        cases h
        intro g hmem
        rcases List.mem_cons.mp hmem with h1 | h1
        · exact ⟨t, List.mem_cons_self t rest, h1 ▸ hg⟩
        · obtain ⟨t', ht', hok⟩ := groqToolsAux_mem_ok rest gs' hrest g h1
          exact ⟨t', List.mem_cons_of_mem t ht', hok⟩

lemma groqToolsAux_ok_mem :
    ∀ (l : List ToolDescriptor) (gs : List GroqTool), groqToolsAux l = .ok gs →
      ∀ t ∈ l, ∀ g, groqToolOf t = .ok g → g ∈ gs
  | [], gs, h => by simp
  | t0 :: rest, gs, h => by
    rw [groqToolsAux] at h
    cases hg : groqToolOf t0 with
    | error e => rw [hg] at h; exact absurd h (by simp)
    | ok g0 =>
      rw [hg] at h
      cases hrest : groqToolsAux rest with
      | error e => rw [hrest] at h; exact absurd h (by simp)
      | ok gs' =>
        rw [hrest] at h
        cases h
        intro t ht g hok
        rcases List.mem_cons.mp ht with h1 | h1
        · subst h1
          rw [hg] at hok
          cases hok
          exact List.mem_cons_self g0 gs'
        · exact List.mem_cons_of_mem g0 (groqToolsAux_ok_mem rest gs' hrest t h1 g hok)

lemma paramSchema_type (param_name param_desc : String) :
    (paramSchema param_name param_desc).type = "string" := by
  unfold paramSchema
  split_ifs <;> rfl

/-- C5: for every registered tool and argument map, `execute_tool` calls
the handler with the map; a raising handler is converted to
`success=false` with the exception message preserved in `error`, the tool
name in `tool` and the argument map in `parameters`; a normally returning
handler yields `success=true` with its return value in `result`; being a
total Lean function, `execute_tool` raises no exception. -/
theorem execute_tool_registered_semantics
    (reg : ToolRegistry) (tool_name : String) (args : ArgsMap) (t : ToolDescriptor)
    (hfind : findTool reg tool_name = some t) :
    (∀ v, t.handler args = .ok v →
      execute_tool reg tool_name args = ⟨true, some v, none, none, none⟩) ∧
    (∀ e, t.handler args = .error e →
      execute_tool reg tool_name args = ⟨false, none, some e, some tool_name, some args⟩) := by
  constructor <;> intro x hx <;> simp [execute_tool, hfind, hx]

/-- Witness for C5: a succeeding and a raising handler in a concrete
registry. -/
theorem execute_tool_registered_semantics_witness :
    execute_tool demoRegistrySucceedFail "explore_csv" [] =
      ⟨true, some (Value.str "explored"), none, none, none⟩ ∧
    execute_tool demoRegistrySucceedFail "extract_csv_data" [] =
      ⟨false, none, some "Error extracting data", some "extract_csv_data", some []⟩ :=
  ⟨(execute_tool_registered_semantics demoRegistrySucceedFail "explore_csv" [] demoTool rfl).1
      (Value.str "explored") rfl,
   (execute_tool_registered_semantics demoRegistrySucceedFail "extract_csv_data" [] demoFailTool
      rfl).2 "Error extracting data" rfl⟩

/-- C6: for every registry and unregistered tool name, `execute_tool`
returns `success=false` with an error string reporting the name as not
found and listing the available tool names; being total, it never
raises. -/
theorem execute_tool_unknown_name
    (reg : ToolRegistry) (tool_name : String) (args : ArgsMap)
    (hfind : findTool reg tool_name = none) :
    execute_tool reg tool_name args =
      ⟨false, none,
       some ("Tool \x27" ++ tool_name ++ "\x27 not found. Available tools: " ++
         pyStrList (reg.tools.map ToolDescriptor.name)), none, none⟩ := by
  simp [execute_tool, hfind, notFoundError]

/-- Witness for C6: `merge_datasets` is not registered in the demo
registry. -/
theorem execute_tool_unknown_name_witness :
    execute_tool demoRegistry "merge_datasets" [] =
      ⟨false, none,
       some ("Tool \x27merge_datasets\x27 not found. Available tools: " ++
         pyStrList ["explore_csv"]), none, none⟩ :=
  execute_tool_unknown_name demoRegistry "merge_datasets" [] rfl

/-- C7: a tool call whose raw argument string fails to parse as JSON is
executed with the empty argument map and still produces exactly one
execution-log entry (recording the empty map) and one tool-result
message; the loop over the remaining calls of the turn proceeds. -/
theorem malformed_arguments_tolerated
    (env : Env) (reg : ToolRegistry) (tc : ToolCall)
    (ms : List Message) (lg : List LogEntry)
    (hparse : env.parseJson tc.arguments = none) :
    processTools env reg [tc] ms lg =
      (ms ++ [Message.tool tc.id tc.name (env.dumps (execute_tool reg tc.name []))],
       lg ++ [⟨tc.name, [], execute_tool reg tc.name []⟩]) ∧
    ∀ rest, processTools env reg (tc :: rest) ms lg =
      processTools env reg rest
        (ms ++ [Message.tool tc.id tc.name (env.dumps (execute_tool reg tc.name []))])
        (lg ++ [⟨tc.name, [], execute_tool reg tc.name []⟩]) := by
  constructor
  · rw [processTools, hparse]
    rfl
  · intro rest
    rw [processTools, hparse]
    rfl

/-- Witness for C7: `demoBadCall`'s arguments do not parse under
`demoParse`. -/
theorem malformed_arguments_tolerated_witness :
    processTools demoEnv demoRegistry [demoBadCall] [] [] =
      ([Message.tool demoBadCall.id demoBadCall.name
          (demoEnv.dumps (execute_tool demoRegistry demoBadCall.name []))],
       [⟨demoBadCall.name, [], execute_tool demoRegistry demoBadCall.name []⟩]) :=
  (malformed_arguments_tolerated demoEnv demoRegistry demoBadCall [] [] rfl).1

/-- C3: if the model call raises on an iteration, `process_query`
returns immediately with `success=false`, the iteration count reached,
the execution log accumulated so far, no `chart_data` key, and an answer
embedding the exception text; a raise on iteration 1 yields
`iterations = 1` and an empty log. -/
theorem model_failure_returns_immediately :
    (∀ (env : Env) (reg : ToolRegistry) (fuel iteration : Nat)
        (ms : List Message) (lg : List LogEntry) (e : String),
      env.model ms = .error e →
      loopAux env reg (fuel + 1) iteration ms lg =
        ⟨"Error occurred during processing: " ++ e, none, lg, false, iteration + 1⟩) ∧
    (∀ (env : Env) (reg : ToolRegistry) (q sp e : String) (ts : List GroqTool),
      get_groq_tools reg = .ok ts →
      env.model [Message.system sp, Message.user q] = .error e →
      process_query env reg q sp =
        .ok ⟨"Error occurred during processing: " ++ e, none, [], false, 1⟩) := by
  refine ⟨loopAux_error, ?_⟩
  intro env reg q sp e ts hts hm
  simp only [process_query, hts]
  exact congrArg Except.ok (loopAux_error env reg 14 0 _ _ e hm)

/-- Witness for C3: a model that raises "API connection timeout" on the
first call. -/
theorem model_failure_returns_immediately_witness :
    process_query demoFailEnv demoRegistry "Q" "S" =
      .ok ⟨"Error occurred during processing: " ++ "API connection timeout",
           none, [], false, 1⟩ :=
  model_failure_returns_immediately.2 demoFailEnv demoRegistry "Q" "S"
    "API connection timeout" [demoGroqTool] rfl rfl

/-- C1: every run of `process_query` performs at most 15 iterations; a
run whose model always requests tool calls ends with `success=false`,
`iterations=15` and the bounded-exhaustion answer, returning (rather
than raising) with the log accumulated so far (the zero-fuel equation
pins the returned log to the accumulated one). -/
theorem bounded_iteration_and_exhaustion :
    (∀ (env : Env) (reg : ToolRegistry) (q sp : String) (res : AgentResult),
      process_query env reg q sp = .ok res → res.iterations ≤ 15) ∧
    (∀ (env : Env) (reg : ToolRegistry) (iteration : Nat) (ms : List Message)
        (lg : List LogEntry),
      loopAux env reg 0 iteration ms lg = ⟨exhaustedAnswer, none, lg, false, 15⟩) ∧
    (∀ (env : Env) (reg : ToolRegistry) (q sp : String),
      (∀ ms, ∃ r, env.model ms = .ok r ∧ r.tool_calls ≠ []) →
      ∀ ts, get_groq_tools reg = .ok ts →
      (process_query env reg q sp).map AgentResult.success = .ok false ∧
      (process_query env reg q sp).map AgentResult.iterations = .ok 15 ∧
      (process_query env reg q sp).map AgentResult.answer = .ok exhaustedAnswer) := by
  refine ⟨?_, loopAux_zero, ?_⟩
  · intro env reg q sp res h
    rw [process_query] at h
    cases hts : get_groq_tools reg with
    | error e => rw [hts] at h; cases h
    | ok ts =>
      rw [hts] at h
      rw [Except.ok.injEq] at h
      subst h
      exact loopAux_iterations_le env reg 15 0 _ _ (by omega)
  · intro env reg q sp hmodel ts hts
    have hex := loopAux_exhaust env reg hmodel 15 0
      [Message.system sp, Message.user q] []
    simp only [process_query, hts, Except.map]
    exact ⟨congrArg Except.ok hex.1, congrArg Except.ok hex.2.1,
      congrArg Except.ok hex.2.2⟩

/-- Witness for C1: a model that requests the demo tool call on every
turn exhausts the bound with 15 identical log entries. -/
theorem bounded_iteration_and_exhaustion_witness :
    ((process_query demoLoopEnv demoRegistry "Q" "S").map AgentResult.success = .ok false ∧
     (process_query demoLoopEnv demoRegistry "Q" "S").map AgentResult.iterations = .ok 15 ∧
     (process_query demoLoopEnv demoRegistry "Q" "S").map AgentResult.answer =
       .ok exhaustedAnswer) ∧
    (⟨exhaustedAnswer, none, List.replicate 15 demoLogEntry, false, 15⟩ :
      AgentResult).iterations ≤ 15 :=
  ⟨bounded_iteration_and_exhaustion.2.2 demoLoopEnv demoRegistry "Q" "S"
      (fun _ => ⟨demoRespTools, rfl, List.cons_ne_nil demoToolCall []⟩) [demoGroqTool] rfl,
   bounded_iteration_and_exhaustion.1 demoLoopEnv demoRegistry "Q" "S"
      ⟨exhaustedAnswer, none, List.replicate 15 demoLogEntry, false, 15⟩ rfl⟩

/-- C2: in a tool-call turn the loop appends the model response, then
executes the calls strictly in the model's order, appending exactly one
log entry and one tool-result message (keyed by the call's id) per call,
then continues to the next iteration; a run with one tool-call turn and
one final-answer turn ends with `iterations=2`, one log entry and
`success=true`. -/
theorem tool_call_turn_processing :
    (∀ (env : Env) (reg : ToolRegistry) (tcs : List ToolCall)
        (ms : List Message) (lg : List LogEntry),
      processTools env reg tcs ms lg =
        (ms ++ tcs.map (fun tc => Message.tool tc.id tc.name
            (env.dumps (execute_tool reg tc.name ((env.parseJson tc.arguments).getD [])))),
         lg ++ tcs.map (fun tc =>
            ⟨tc.name, (env.parseJson tc.arguments).getD [],
             execute_tool reg tc.name ((env.parseJson tc.arguments).getD [])⟩))) ∧
    (∀ (env : Env) (reg : ToolRegistry) (fuel iteration : Nat)
        (ms : List Message) (lg : List LogEntry) (r : ResponseMessage),
      env.model ms = .ok r → r.tool_calls ≠ [] →
      loopAux env reg (fuel + 1) iteration ms lg =
        loopAux env reg fuel (iteration + 1)
          (processTools env reg r.tool_calls (ms ++ [Message.assistant r]) lg).1
          (processTools env reg r.tool_calls (ms ++ [Message.assistant r]) lg).2) ∧
    ((process_query demoEnv demoRegistry "Q" "S").map AgentResult.iterations = .ok 2 ∧
     (process_query demoEnv demoRegistry "Q" "S").map
        (fun r => r.execution_log.length) = .ok 1 ∧
     (process_query demoEnv demoRegistry "Q" "S").map AgentResult.success = .ok true) :=
  ⟨processTools_spec, loopAux_step, rfl, rfl, rfl⟩

/-- Witness for C2: one unfolding step of the loop on the demo
environment's tool-call turn. -/
theorem tool_call_turn_processing_witness :
    loopAux demoEnv demoRegistry 15 0 [Message.system "S", Message.user "Q"] [] =
      loopAux demoEnv demoRegistry 14 1
        (processTools demoEnv demoRegistry demoRespTools.tool_calls
          ([Message.system "S", Message.user "Q"] ++ [Message.assistant demoRespTools]) []).1
        (processTools demoEnv demoRegistry demoRespTools.tool_calls
          ([Message.system "S", Message.user "Q"] ++ [Message.assistant demoRespTools]) []).2 :=
  tool_call_turn_processing.2.1 demoEnv demoRegistry 14 0
    [Message.system "S", Message.user "Q"] [] demoRespTools rfl
    (List.cons_ne_nil demoToolCall [])

/-- C4: a model response with no tool calls ends the loop with
`success=true`, the response's text as the answer, and `chart_data`
equal to the result of the most recent execution-log entry whose tool is
`create_chart` and whose result is successful (latest entry wins;
`None` when no such entry exists). -/
theorem final_answer_and_latest_chart :
    (∀ (env : Env) (reg : ToolRegistry) (fuel iteration : Nat)
        (ms : List Message) (lg : List LogEntry) (r : ResponseMessage),
      env.model ms = .ok r → r.tool_calls = [] →
      loopAux env reg (fuel + 1) iteration ms lg =
        ⟨r.content, some (extractChartData lg), lg, true, iteration + 1⟩) ∧
    (∀ lg : List LogEntry,
      extractChartData lg =
        (lg.reverse.find? (fun e => e.tool == "create_chart" && e.result.success)).map
          (fun e => e.result.result.getD Value.emptyDict)) :=
  ⟨loopAux_done, fun lg => extractChartData_eq_find lg⟩

/-- Witness for C4: a final-answer turn over a log holding one
successful chart entry surfaces that entry's result. -/
theorem final_answer_and_latest_chart_witness :
    loopAux demoEnv demoRegistry 1 1
        [Message.system "S", Message.user "Q", Message.assistant demoRespTools]
        [demoChartEntry] =
      ⟨"Revenue was 500000 dollars.", some (some (Value.str "chart one")),
       [demoChartEntry], true, 2⟩ :=
  final_answer_and_latest_chart.1 demoEnv demoRegistry 0 1
    [Message.system "S", Message.user "Q", Message.assistant demoRespTools]
    [demoChartEntry] demoRespFinal rfl rfl

/-- C10: the `Failed` and `Exhausted` results carry no `chart_data` key
at all (`none` in the key-presence encoding) while keeping the
accumulated log — including any successful chart entry — in
`execution_log`; only the `Done` result carries the key (`some _`),
holding the scanned chart value. -/
theorem chart_data_only_on_done :
    (∀ (env : Env) (reg : ToolRegistry) (fuel iteration : Nat)
        (ms : List Message) (lg : List LogEntry) (e : String),
      env.model ms = .error e →
      (loopAux env reg (fuel + 1) iteration ms lg).chart_data = none ∧
      (loopAux env reg (fuel + 1) iteration ms lg).execution_log = lg) ∧
    (∀ (env : Env) (reg : ToolRegistry) (iteration : Nat) (ms : List Message)
        (lg : List LogEntry),
      (loopAux env reg 0 iteration ms lg).chart_data = none ∧
      (loopAux env reg 0 iteration ms lg).execution_log = lg) ∧
    (∀ (env : Env) (reg : ToolRegistry) (fuel iteration : Nat)
        (ms : List Message) (lg : List LogEntry) (r : ResponseMessage),
      env.model ms = .ok r → r.tool_calls = [] →
      (loopAux env reg (fuel + 1) iteration ms lg).chart_data =
        some (extractChartData lg)) := by
  refine ⟨?_, ?_, ?_⟩
  · intro env reg fuel iteration ms lg e h
    rw [loopAux_error env reg fuel iteration ms lg e h]
    exact ⟨rfl, rfl⟩
  · intro env reg iteration ms lg
    exact ⟨rfl, rfl⟩
  · intro env reg fuel iteration ms lg r h h2
    rw [loopAux_done env reg fuel iteration ms lg r h h2]

/-- Witness for C10: a failing model call over a log holding a
successful chart entry returns no `chart_data` key yet keeps the entry
in the log; a final-answer turn over the same log carries the key. -/
theorem chart_data_only_on_done_witness :
    ((loopAux demoFailEnv demoRegistry 15 0 [] [demoChartEntry]).chart_data = none ∧
     (loopAux demoFailEnv demoRegistry 15 0 [] [demoChartEntry]).execution_log =
       [demoChartEntry]) ∧
    (loopAux demoEnv demoRegistry 1 1
        [Message.system "S", Message.user "Q", Message.assistant demoRespTools]
        [demoChartEntry]).chart_data = some (extractChartData [demoChartEntry]) :=
  ⟨chart_data_only_on_done.1 demoFailEnv demoRegistry 14 0 [] [demoChartEntry]
      "API connection timeout" rfl,
   chart_data_only_on_done.2.2 demoEnv demoRegistry 0 1
      [Message.system "S", Message.user "Q", Message.assistant demoRespTools]
      [demoChartEntry] demoRespFinal rfl rfl⟩

/-- C8: every Groq tool emitted by `get_groq_tools` types every
parameter as `"string"`, lists every declared parameter in `required`,
and the structured parameters (`filters`, `group_by`/`columns`/
`on_columns`, `data`) get a JSON-encoding instruction appended to their
description. -/
theorem groq_schema_all_string_required :
    (∀ (reg : ToolRegistry) (ts : List GroqTool), get_groq_tools reg = .ok ts →
      ∀ g ∈ ts,
        g.function.parameters.required =
          g.function.parameters.properties.map Prod.fst ∧
        ∀ p ∈ g.function.parameters.properties, p.2.type = "string") ∧
    (∀ (reg : ToolRegistry) (ts : List GroqTool) (t : ToolDescriptor)
        (ps : List (String × String)) (d : String),
      get_groq_tools reg = .ok ts → t ∈ reg.tools →
      t.parameters = some ps → t.description = some d →
      (⟨"function",
        ⟨t.name, d,
         ⟨"object", ps.map (fun p => (p.1, paramSchema p.1 p.2)),
          ps.map Prod.fst⟩⟩⟩ : GroqTool) ∈ ts) ∧
    (∀ d : String,
      paramSchema "filters" d = ⟨"string", d ++ " Provide as JSON string."⟩ ∧
      paramSchema "data" d = ⟨"string", d ++ " Provide as JSON string."⟩ ∧
      paramSchema "group_by" d = ⟨"string", d ++ " Provide as JSON array string."⟩ ∧
      paramSchema "columns" d = ⟨"string", d ++ " Provide as JSON array string."⟩ ∧
      paramSchema "on_columns" d = ⟨"string", d ++ " Provide as JSON array string."⟩) := by
  refine ⟨?_, ?_, ?_⟩
  · intro reg ts hts g hg
    obtain ⟨t, _, hok⟩ := groqToolsAux_mem_ok reg.tools ts hts g hg
    obtain ⟨ps, d, _, _, hgeq⟩ := groqToolOf_shape t g hok
    subst hgeq
    constructor
    · simp [List.map_map]
    · intro p hp
      obtain ⟨q, _, hq⟩ := List.mem_map.mp hp
      rw [← hq]
      exact paramSchema_type q.1 q.2
  · intro reg ts t ps d hts hmem hps hd
    have hok : groqToolOf t =
        .ok ⟨"function",
             ⟨t.name, d,
              ⟨"object", ps.map (fun p => (p.1, paramSchema p.1 p.2)),
               ps.map Prod.fst⟩⟩⟩ := by
      rw [groqToolOf, hps, hd]
    exact groqToolsAux_ok_mem reg.tools ts hts t hmem _ hok
  · intro d
    exact ⟨rfl, rfl, rfl, rfl, rfl⟩

/-- Witness for C8: the emitted schema of the demo registry. -/
theorem groq_schema_all_string_required_witness :
    demoGroqTool.function.parameters.required =
      demoGroqTool.function.parameters.properties.map Prod.fst ∧
    (("csv_name", (⟨"string", "Name of the CSV file"⟩ : ParamSchema)) :
      String × ParamSchema).2.type = "string" ∧
    demoGroqTool ∈ [demoGroqTool] :=
  ⟨(groq_schema_all_string_required.1 demoRegistry [demoGroqTool] rfl demoGroqTool
      (List.mem_singleton.mpr rfl)).1,
   (groq_schema_all_string_required.1 demoRegistry [demoGroqTool] rfl demoGroqTool
      (List.mem_singleton.mpr rfl)).2
      ("csv_name", ⟨"string", "Name of the CSV file"⟩) (List.mem_singleton.mpr rfl),
   groq_schema_all_string_required.2.1 demoRegistry [demoGroqTool] demoTool
      [("csv_name", "Name of the CSV file")]
      "Explore the structure and content of a CSV file."
      rfl (List.mem_singleton.mpr rfl) rfl rfl⟩

/-- C9: the schema adapter is a pure (total) transformation that
succeeds exactly when every registry entry carries its `parameters` and
`description` keys; a failure, raised while `process_query` builds the
tool list before entering the loop, propagates to the caller as a
construction-time error rather than being swallowed into a
`success=false` result. -/
theorem groq_schema_fails_only_when_malformed :
    (∀ reg : ToolRegistry,
      (∃ ts, get_groq_tools reg = .ok ts) ↔
        ∀ t ∈ reg.tools, t.parameters ≠ none ∧ t.description ≠ none) ∧
    (∀ (env : Env) (reg : ToolRegistry) (q sp e : String),
      get_groq_tools reg = .error e →
      process_query env reg q sp = .error e) := by
  constructor
  · intro reg
    exact groqToolsAux_ok_iff reg.tools
  · intro env reg q sp e h
    simp [process_query, h]

/-- Witness for C9: a registry entry lacking `parameters` makes
`process_query` propagate the `KeyError`. -/
theorem groq_schema_fails_only_when_malformed_witness :
    process_query demoFailEnv demoBadRegistry "Q" "S" =
      .error "KeyError: \x27parameters\x27" :=
  groq_schema_fails_only_when_malformed.2 demoFailEnv demoBadRegistry "Q" "S"
    "KeyError: \x27parameters\x27" rfl
